import Mathlib

/-!
Shallow embedding of `src/application.py` (a Flask service persisting event rows to
MySQL).  Python functions become Lean functions; the database and the process-wide
mutable state are threaded explicitly.  SQL statement effects (CREATE TABLE IF NOT
EXISTS, REPLACE INTO, INSERT, SELECT ... ORDER BY, DATE_FORMAT) are modelled per
their documented MySQL semantics, since the database engine is an external
collaborator of the program.  The store is assumed reachable; machine-level
concerns (timestamps, connection sockets) are abstracted to counters and flags.
-/

namespace App

/-- JSON scalar values appearing in request payloads.  The route logic only tests
key membership and Python truthiness of values and serializes them, so nested
arrays/objects are not modelled. -/
inductive JVal where
  | jnull : JVal
  | jstr (s : String) : JVal
  | jnum (n : Int) : JVal
  | jbool (b : Bool) : JVal
deriving DecidableEq, Repr

/-- Python falsiness of a JSON value (`not v`). -/
def JVal.falsy : JVal → Bool
  | .jnull => true
  | .jstr s => s = ""
  | .jnum n => n = 0
  | .jbool b => !b

/-- A JSON object body, as the Python dict `request.get_json()` yields: an
association list of keys to values (keys unique in practice). -/
abbrev Payload := List (String × JVal)

/-- `payload.get(k)` on a Python dict. -/
def pget (p : Payload) (k : String) : Option JVal :=
  (p.find? (fun kv => kv.1 = k)).map (fun kv => kv.2)

/-- `k in payload` on a Python dict. -/
def hasKey (p : Payload) (k : String) : Bool :=
  (p.find? (fun kv => kv.1 = k)).isSome

/-- Python truthiness of `payload.get(k)`: `None` (absent) and falsy values fail. -/
def truthyOpt : Option JVal → Bool
  | none => false
  | some v => !v.falsy

/-- JSON string escaping as `json.dumps` performs it (with `ensure_ascii=False`,
non-ASCII characters pass through literally). -/
def escChar (c : Char) : String :=
  if c = '"' then "\\\""
  else if c = '\\' then "\\\\"
  else if c = '\n' then "\\n"
  else if c = '\t' then "\\t"
  else if c = '\r' then "\\r"
  else String.singleton c

def escString (s : String) : String :=
  String.join (s.data.map escChar)

def JVal.dump : JVal → String
  | .jnull => "null"
  | .jstr s => "\"" ++ escString s ++ "\""
  | .jnum n => toString n
  | .jbool b => if b then "true" else "false"

def dumpPairs : Payload → List String
  | [] => []
  | (k, v) :: rest => ("\"" ++ escString k ++ "\": " ++ v.dump) :: dumpPairs rest

/-- `json.dumps(payload, ensure_ascii=False)`: the Python `None` body serializes to
`"null"`, a dict to a brace-delimited object in insertion order with the default
`", "` and `": "` separators. -/
def dumps : Option Payload → String
  | none => "null"
  | some p => "\x7b" ++ String.intercalate ", " (dumpPairs p) ++ "\x7d"

/-- A calendar date as MySQL's DATE type stores it. -/
structure Date where
  year : Nat
  month : Nat
  day : Nat
deriving DecidableEq, Repr

/-- Chronological comparison, the order MySQL uses for `ORDER BY date ASC`. -/
def Date.le (a b : Date) : Bool :=
  a.year < b.year ||
    (a.year = b.year && (a.month < b.month ||
      (a.month = b.month && a.day ≤ b.day)))

def pad2 (n : Nat) : String :=
  if n < 10 then "0" ++ toString n else toString n

def pad4 (n : Nat) : String :=
  if n < 10 then "000" ++ toString n
  else if n < 100 then "00" ++ toString n
  else if n < 1000 then "0" ++ toString n
  else toString n

/-- `DATE_FORMAT(date, '%Y-%m-%d')`. -/
def formatDate (d : Date) : String :=
  pad4 d.year ++ "-" ++ pad2 d.month ++ "-" ++ pad2 d.day

def leapYear (y : Nat) : Bool :=
  (y % 4 = 0 && y % 100 ≠ 0) || y % 400 = 0

def daysInMonth (y m : Nat) : Nat :=
  if m = 2 then (if leapYear y then 29 else 28)
  else if m = 4 || m = 6 || m = 9 || m = 11 then 30
  else 31

/-- Split a character list at every occurrence of `c` (the semantics of
`str.split('-')` restricted to one-character separators). -/
def splitOnChar (c : Char) : List Char → List (List Char)
  | [] => [[]]
  | x :: xs =>
    match splitOnChar c xs, decide (x = c) with
    | rest, true => [] :: rest
    | r :: rs, false => (x :: r) :: rs
    | [], false => [[x]]

/-- The numeric value of a digit string. -/
def digitsVal (cs : List Char) : Nat :=
  cs.foldl (fun a c => a * 10 + (c.toNat - 48)) 0

/-- MySQL's acceptance of a canonical `YYYY-MM-DD` date literal for a DATE column
(strict mode rejects out-of-range components).  MySQL also accepts some
non-canonical spellings; the model covers the canonical form. -/
def parseDate (s : String) : Option Date :=
  match splitOnChar '-' s.data with
  | [ys, ms, ds] =>
    if ys.length = 4 && ms.length = 2 && ds.length = 2
        && ys.all Char.isDigit && ms.all Char.isDigit && ds.all Char.isDigit then
      if 1000 ≤ digitsVal ys && 1 ≤ digitsVal ms && digitsVal ms ≤ 12
          && 1 ≤ digitsVal ds && digitsVal ds ≤ daysInMonth (digitsVal ys) (digitsVal ms) then
        some ⟨digitsVal ys, digitsVal ms, digitsVal ds⟩
      else none
    else none
  | _ => none

/-- Python exceptions raised by the functions of `application.py`. -/
inductive Err where
  | envError (msg : String)
  | connError (msg : String)
  | runtimeError (msg : String)
  | valueError (msg : String)
  | dbError (msg : String)
  | notImplementedError (msg : String)
deriving DecidableEq, Repr

/-- Python `str(e)`. -/
def Err.str : Err → String
  | .envError m => m
  | .connError m => m
  | .runtimeError m => m
  | .valueError m => m
  | .dbError m => m
  | .notImplementedError m => m

/-- The four environment variables read by `get_db_connection`. -/
structure Env where
  DB_HOST : Option String
  DB_USER : Option String
  DB_PASSWORD : Option String
  DB_NAME : Option String
deriving DecidableEq, Repr

def Env.get : Env → String → Option String
  | e, "DB_HOST" => e.DB_HOST
  | e, "DB_USER" => e.DB_USER
  | e, "DB_PASSWORD" => e.DB_PASSWORD
  | e, "DB_NAME" => e.DB_NAME
  | _, _ => none

/-- `not os.environ.get(var)`: unset or empty counts as missing. -/
def falsyEnvVal : Option String → Bool
  | none => true
  | some s => s = ""

def requiredVars : List String := ["DB_HOST", "DB_USER", "DB_PASSWORD", "DB_NAME"]

def missingVars (env : Env) : List String :=
  requiredVars.filter (fun v => falsyEnvVal (env.get v))

/-- One row of the `events` table: the inserted Python values, with the DATE
column holding the parsed calendar date.  The surrogate `id` is auto-assigned by
the store and never read back by the program, so it is not modelled. -/
structure EventRow where
  title : JVal
  description : Option JVal
  image_url : Option JVal
  date : Date
  location : Option JVal
deriving DecidableEq, Repr

/-- One row of the result set of `fetch_data_from_db`'s SELECT (DictCursor). -/
structure DataRow where
  title : JVal
  date : String
  image_url : Option JVal
  description : Option JVal
  location : Option JVal
deriving DecidableEq, Repr

def EventRow.toDataRow (r : EventRow) : DataRow :=
  ⟨r.title, formatDate r.date, r.image_url, r.description, r.location⟩

/-- The database plus connection accounting.  `opened`/`closed` count connection
opens and releases so that resource discipline is expressible. -/
structure DBState where
  eventsExists : Bool
  debugExists : Bool
  events : List EventRow
  debugRows : List (Nat × String)
  opened : Nat
  closed : Nat
deriving DecidableEq, Repr

def openConn (s : DBState) : DBState := { s with opened := s.opened + 1 }

def closeConn (s : DBState) : DBState := { s with closed := s.closed + 1 }

/-- `get_db_connection`: raises `EnvironmentError` naming the missing variables
when any of the four is unset or empty; otherwise opens a fresh connection.
(The `ConnectionError` branch for an unreachable store is not exercised: the
model assumes the store reachable.) -/
def get_db_connection (env : Env) (s : DBState) : Except Err Unit × DBState :=
  let missing := missingVars env
  if missing.isEmpty then
    (.ok (), openConn s)
  else
    (.error (.envError ("Missing environment variables: " ++
      String.intercalate ", " missing)), s)

/-- `create_db_table`: opens a connection (line 115) OUTSIDE the try block — this
handle is never closed — then opens a second connection in the `with` block
(shadowing the first), issues CREATE TABLE IF NOT EXISTS events, commits, and the
`with` exit closes the second connection.  An exception from the first
`get_db_connection` propagates unwrapped; one from inside the try is wrapped in
`RuntimeError`. -/
def create_db_table (env : Env) (s : DBState) : Except Err Unit × DBState :=
  match get_db_connection env s with
  | (.error e, s1) => (.error e, s1)
  | (.ok _, s1) =>
    match get_db_connection env s1 with
    | (.error e, s2) => (.error (.runtimeError ("Table creation failed: " ++ e.str)), s2)
    | (.ok _, s2) =>
      (.ok (), closeConn { s2 with eventsExists := true })

/-- `write_last_payload_to_db`: ensures the events table (via `create_db_table`),
opens its own connection, creates `debug_last_payload` if absent, then
`REPLACE INTO debug_last_payload (id, payload_json) VALUES (1, %s)` with
`json.dumps(payload, ensure_ascii=False)`; commits; `finally` closes its
connection.  REPLACE deletes any row with the same primary key and inserts. -/
def write_last_payload_to_db (env : Env) (payload : Option Payload) (s : DBState) :
    Except Err Unit × DBState :=
  match create_db_table env s with
  | (.error e, s1) => (.error e, s1)
  | (.ok _, s1) =>
    match get_db_connection env s1 with
    | (.error e, s2) => (.error e, s2)
    | (.ok _, s2) =>
      (.ok (), closeConn { s2 with
        debugExists := true,
        debugRows := (1, dumps payload) :: s2.debugRows.filter (fun r => r.1 ≠ 1) })

/-- `insert_data_into_db`: ensures the events table, reads the five fields with
`.get`, raises `ValueError` when `title` or `date` is falsy (absent OR empty),
otherwise opens a connection, widens `image_url` (no-op on the model), inserts
one row — MySQL parses the submitted date string, rejecting a malformed one —
commits, and `finally` closes the connection. -/
def insert_data_into_db (env : Env) (payload : Payload) (s : DBState) :
    Except Err Unit × DBState :=
  match create_db_table env s with
  | (.error e, s1) => (.error e, s1)
  | (.ok _, s1) =>
    if !(truthyOpt (pget payload "title")) || !(truthyOpt (pget payload "date")) then
      (.error (.valueError "Missing required fields: title, date"), s1)
    else
      match get_db_connection env s1 with
      | (.error e, s2) => (.error e, s2)
      | (.ok _, s2) =>
        match pget payload "title", pget payload "date" with
        | some tv, some (.jstr ds) =>
          match parseDate ds with
          | some d =>
            (.ok (), closeConn { s2 with events := s2.events ++
              [⟨tv, pget payload "description", pget payload "image_url", d,
                pget payload "location"⟩] })
          | none => (.error (.dbError ("Incorrect DATE value: " ++ ds)), closeConn s2)
        | _, _ => (.error (.dbError "Incorrect DATE value"), closeConn s2)

/-- `fetch_data_from_db`: ensures the events table, opens a connection, runs
SELECT title, DATE_FORMAT(date, '%Y-%m-%d') AS date, image_url, description,
location FROM events ORDER BY date ASC, returns all rows, `finally` closes. -/
def fetch_data_from_db (env : Env) (s : DBState) :
    Except Err (List DataRow) × DBState :=
  match create_db_table env s with
  | (.error e, s1) => (.error e, s1)
  | (.ok _, s1) =>
    match get_db_connection env s1 with
    | (.error e, s2) => (.error e, s2)
    | (.ok _, s2) =>
      (.ok ((s2.events.mergeSort (fun a b => Date.le a.date b.date)).map
        EventRow.toDataRow),
       closeConn s2)

/-- HTTP response bodies produced by the four routes. -/
inductive RespBody where
  | jmsg (s : String)
  | jerror (s : String)
  | jerrorDetail (e d : String)
  | jdata (rows : List DataRow)
  | jdebugRow (payload_json : String)
  | jempty
  | jhealth
  | frameworkError (s : String)
deriving DecidableEq, Repr

/-- Process state: the database plus the `LAST_EVENT_PAYLOAD` global. -/
structure ServerState where
  db : DBState
  lastPayload : Option Payload
deriving DecidableEq, Repr

/-- The exception-to-status mapping of the route handlers of `/events` and
`/data`: `NotImplementedError` becomes 501, any other exception 500 with the
raw exception text as detail. -/
def routeErr (ctx : String) (e : Err) : Nat × RespBody :=
  match e with
  | .notImplementedError m => (501, .jerror m)
  | _ => (500, .jerrorDetail ctx e.str)

/-- POST `/events`: mirrors the payload (before anything else), sets the
`LAST_EVENT_PAYLOAD` global, validates only KEY PRESENCE of title/date (400 on
failure), then inserts (201 on success); exceptions map via `routeErr`. -/
def create_event (env : Env) (payload : Option Payload) (st : ServerState) :
    (Nat × RespBody) × ServerState :=
  match write_last_payload_to_db env payload st.db with
  | (.error e, db1) => (routeErr "During event creation" e, { st with db := db1 })
  | (.ok _, db1) =>
    let st1 : ServerState := { db := db1, lastPayload := payload }
    match payload with
    | none => ((400, .jerror "Missing required fields: 'title' and 'date'"), st1)
    | some p =>
      if p.isEmpty || !(hasKey p "title") || !(hasKey p "date") then
        ((400, .jerror "Missing required fields: 'title' and 'date'"), st1)
      else
        match insert_data_into_db env p st1.db with
        | (.ok _, db2) => ((201, .jmsg "Event created successfully"), { st1 with db := db2 })
        | (.error e, db2) => (routeErr "During event creation" e, { st1 with db := db2 })

/-- GET `/data`. -/
def get_data (env : Env) (st : ServerState) : (Nat × RespBody) × ServerState :=
  match fetch_data_from_db env st.db with
  | (.ok rows, db1) => ((200, .jdata rows), { st with db := db1 })
  | (.error e, db1) => (routeErr "During data retrieval" e, { st with db := db1 })

/-- GET `/debug_last_event`: connects and SELECTs the debug row with NO
try/except in the route, so exceptions (missing env vars, missing table)
propagate to the framework, which answers with its generic 500 error page; the
`finally` still closes the connection once it was opened. -/
def debug_last_event (env : Env) (st : ServerState) : (Nat × RespBody) × ServerState :=
  match get_db_connection env st.db with
  | (.error _, db1) => ((500, .frameworkError "Internal Server Error"), { st with db := db1 })
  | (.ok _, db1) =>
    if db1.debugExists then
      match db1.debugRows.find? (fun r => r.1 = 1) with
      | some r => ((200, .jdebugRow r.2), { st with db := closeConn db1 })
      | none => ((200, .jempty), { st with db := closeConn db1 })
    else
      ((500, .frameworkError "Internal Server Error"), { st with db := closeConn db1 })

/-- GET `/health`. -/
def health (st : ServerState) : (Nat × RespBody) × ServerState :=
  ((200, .jhealth), st)

/-- Whether `needle` starts the list `hay`. -/
def leadsWith : List Char → List Char → Bool
  | [], _ => true
  | _ :: _, [] => false
  | a :: as, b :: bs => a = b && leadsWith as bs

/-- Whether `needle` occurs contiguously somewhere in `hay`. -/
def occursIn (needle : List Char) : List Char → Bool
  | [] => leadsWith needle []
  | c :: cs => leadsWith needle (c :: cs) || occursIn needle cs

/-- Substring test: `needle` occurs in `hay`. -/
def strContains (hay needle : String) : Bool :=
  occursIn needle.data hay.data

/-- Whether a response body's text mentions the string `v` anywhere. -/
def RespBody.mentions : RespBody → String → Bool
  | .jmsg s, v => strContains s v
  | .jerror s, v => strContains s v
  | .jdebugRow s, v => strContains s v
  | .frameworkError s, v => strContains s v
  | .jerrorDetail e d, v => strContains e v || strContains d v
  | .jdata _, _ => false
  | .jempty, _ => false
  | .jhealth, _ => false

/-- A complete environment, used by concrete witnesses. -/
def env₀ : Env := ⟨some "h", some "u", some "p", some "d"⟩

/-- An environment with `DB_HOST` unset, used by concrete counterexamples. -/
def env₁ : Env := ⟨none, some "u", some "p", some "d"⟩

/-- The fresh server state: no tables, no rows, no connections, global `None`. -/
def st₀ : ServerState := ⟨⟨false, false, [], [], 0, 0⟩, none⟩

/-- A state whose database holds the serialized debug row `"B"` while the
in-memory slot holds a DIFFERENT payload. -/
def stA : ServerState :=
  ⟨⟨true, true, [], [(1, "\"B\"")], 0, 0⟩, some [("title", JVal.jstr "A")]⟩

/-- The same database as `stA` but with an empty in-memory slot. -/
def stB : ServerState := ⟨⟨true, true, [], [(1, "\"B\"")], 0, 0⟩, none⟩

/-- A state whose debug table already holds a row, for the C8 witness. -/
def stC8 : ServerState := ⟨⟨true, true, [], [(1, "old")], 0, 0⟩, none⟩

/-- A state whose events table holds three rows with out-of-order dates. -/
def stC3 : ServerState :=
  ⟨⟨true, true,
    [⟨JVal.jstr "a", none, none, ⟨2024, 3, 1⟩, none⟩,
     ⟨JVal.jstr "b", none, none, ⟨2024, 1, 5⟩, none⟩,
     ⟨JVal.jstr "c", none, none, ⟨2024, 2, 10⟩, none⟩],
    [], 0, 0⟩, none⟩

/-- `payload.get(k)` lifted to the optional request body. -/
def pgetOpt : Option Payload → String → Option JVal
  | none, _ => none
  | some p, k => pget p k

/-- Whether the body is a dict passing the route's presence-only validation. -/
def keysPresent : Option Payload → Bool
  | none => false
  | some p => !p.isEmpty && hasKey p "title" && hasKey p "date"

/-- The persisted debug mirror: the `payload_json` of the row with id 1. -/
def findDebug (s : DBState) : Option String :=
  (s.debugRows.find? (fun r => r.1 = 1)).map (fun r => r.2)

/-- The `EnvironmentError` message of `get_db_connection`. -/
def envErrMsg (env : Env) : String :=
  "Missing environment variables: " ++ String.intercalate ", " (missingVars env)

/-- Whether an exception is a `NotImplementedError` (the only one mapped to 501). -/
def Err.isNIE : Err → Bool
  | .notImplementedError _ => true
  | _ => false

/-! Reduction lemmas for a complete environment. -/

theorem gdc_complete {env : Env} (henv : missingVars env = []) (s : DBState) :
    get_db_connection env s = (.ok (), openConn s) := by
  simp [get_db_connection, henv]

theorem cdt_complete {env : Env} (henv : missingVars env = []) (s : DBState) :
    create_db_table env s =
      (.ok (), closeConn { openConn (openConn s) with eventsExists := true }) := by
  simp [create_db_table, gdc_complete henv]

theorem write_complete {env : Env} (henv : missingVars env = [])
    (payload : Option Payload) (s : DBState) :
    write_last_payload_to_db env payload s =
      (.ok (), closeConn
        { openConn (closeConn { openConn (openConn s) with eventsExists := true }) with
          debugExists := true,
          debugRows := (1, dumps payload) :: s.debugRows.filter (fun r => r.1 ≠ 1) }) := by
  simp [write_last_payload_to_db, cdt_complete henv, gdc_complete henv, openConn, closeConn]

theorem fetch_complete {env : Env} (henv : missingVars env = []) (s : DBState) :
    fetch_data_from_db env s =
      (.ok ((s.events.mergeSort (fun a b => Date.le a.date b.date)).map EventRow.toDataRow),
       closeConn
        (openConn (closeConn { openConn (openConn s) with eventsExists := true }))) := by
  simp [fetch_data_from_db, cdt_complete henv, gdc_complete henv, openConn, closeConn]

/-! Reduction lemmas for an incomplete environment. -/

theorem gdc_missing {env : Env} (henv : missingVars env ≠ []) (s : DBState) :
    get_db_connection env s = (.error (.envError (envErrMsg env)), s) := by
  simp [get_db_connection, envErrMsg, henv]

theorem cdt_missing {env : Env} (henv : missingVars env ≠ []) (s : DBState) :
    create_db_table env s = (.error (.envError (envErrMsg env)), s) := by
  simp [create_db_table, gdc_missing henv]

theorem write_missing {env : Env} (henv : missingVars env ≠ [])
    (payload : Option Payload) (s : DBState) :
    write_last_payload_to_db env payload s = (.error (.envError (envErrMsg env)), s) := by
  simp [write_last_payload_to_db, cdt_missing henv]

theorem fetch_missing {env : Env} (henv : missingVars env ≠ []) (s : DBState) :
    fetch_data_from_db env s = (.error (.envError (envErrMsg env)), s) := by
  simp [fetch_data_from_db, cdt_missing henv]

/-! Payload lemmas. -/

theorem hasKey_of_pget {p : Payload} {k : String} {v : JVal} (h : pget p k = some v) :
    hasKey p k = true := by
  unfold pget at h
  unfold hasKey
  cases hf : p.find? (fun kv => kv.1 = k) with
  | none => rw [hf] at h; simp at h
  | some kv => simp

theorem not_isEmpty_of_hasKey {p : Payload} {k : String} (h : hasKey p k = true) :
    p.isEmpty = false := by
  cases p with
  | nil => simp [hasKey, List.find?] at h
  | cons a l => simp

theorem parseDate_empty : parseDate "" = none := by decide

/-! Order lemmas for the chronological comparison. -/

theorem Date.le_trans (a b c : Date) :
    Date.le a b → Date.le b c → Date.le a c := by
  intro hab hbc
  simp only [Date.le, Bool.or_eq_true, Bool.and_eq_true, decide_eq_true_eq] at hab hbc ⊢
  omega

theorem Date.le_total (a b : Date) : Date.le a b || Date.le b a := by
  simp only [Date.le, Bool.or_eq_true, Bool.and_eq_true, decide_eq_true_eq]
  omega

/-! Reduction lemmas for `insert_data_into_db` under a complete environment. -/

theorem insert_valid {env : Env} (henv : missingVars env = [])
    (p : Payload) (tv : JVal) (ds : String) (d : Date) (s : DBState)
    (ht : pget p "title" = some tv) (htv : tv.falsy = false)
    (hd : pget p "date" = some (JVal.jstr ds)) (hds : parseDate ds = some d) :
    insert_data_into_db env p s =
      (.ok (), closeConn
        { openConn (closeConn { openConn (openConn s) with eventsExists := true }) with
          events := s.events ++
            [⟨tv, pget p "description", pget p "image_url", d, pget p "location"⟩] }) := by
  have hne : ds ≠ "" := by
    intro h
    rw [h, parseDate_empty] at hds
    exact Option.noConfusion hds
  have htruthy : truthyOpt (some tv) = true := by
    simp [truthyOpt, htv]
  have hdtruthy : truthyOpt (some (JVal.jstr ds)) = true := by
    simp [truthyOpt, JVal.falsy, hne]
  simp [insert_data_into_db, cdt_complete henv, gdc_complete henv,
    htruthy, hdtruthy, ht, hd, hds, openConn, closeConn]

/-- Whatever its outcome, `insert_data_into_db` never touches the debug rows. -/
theorem insert_debugRows {env : Env} (henv : missingVars env = []) (p : Payload)
    (s : DBState) : (insert_data_into_db env p s).2.debugRows = s.debugRows := by
  simp only [insert_data_into_db, cdt_complete henv, gdc_complete henv]
  split
  · simp [openConn, closeConn]
  · split <;> (try split) <;> simp [openConn, closeConn]

/-- Whatever its outcome, `insert_data_into_db` never touches the debug table
existence flag. -/
theorem insert_debugExists {env : Env} (henv : missingVars env = []) (p : Payload)
    (s : DBState) : (insert_data_into_db env p s).2.debugExists = s.debugExists := by
  simp only [insert_data_into_db, cdt_complete henv, gdc_complete henv]
  split
  · simp [openConn, closeConn]
  · split <;> (try split) <;> simp [openConn, closeConn]

/-- Whatever its outcome, `insert_data_into_db` leaves the events table ensured
(under a complete environment). -/
theorem insert_eventsExists {env : Env} (henv : missingVars env = []) (p : Payload)
    (s : DBState) : (insert_data_into_db env p s).2.eventsExists = true := by
  simp only [insert_data_into_db, cdt_complete henv, gdc_complete henv]
  split
  · simp [openConn, closeConn]
  · split <;> (try split) <;> simp [openConn, closeConn]

/-! Exception-shape lemmas: no function of the program ever raises
`NotImplementedError` (the stubs in the source were filled in). -/

theorem errPair_inj {α : Type} {e1 e : Err} {s1 s' : DBState}
    (h : ((Except.error e1 : Except Err α), s1) = (.error e, s')) : e1 = e := by
  have h1 := congrArg Prod.fst h
  simp only [Except.error.injEq] at h1
  exact h1

theorem gdc_no_nie (env : Env) (s : DBState) (e : Err) (s' : DBState)
    (h : get_db_connection env s = (.error e, s')) : e.isNIE = false := by
  simp only [get_db_connection] at h
  split at h
  · simp at h
  · rw [← errPair_inj h]
    simp [Err.isNIE]

theorem cdt_no_nie (env : Env) (s : DBState) (e : Err) (s' : DBState)
    (h : create_db_table env s = (.error e, s')) : e.isNIE = false := by
  unfold create_db_table at h
  split at h
  · rename_i e1 s1 heq
    exact errPair_inj h ▸ gdc_no_nie env s e1 s1 heq
  · split at h
    · rw [← errPair_inj h]
      simp [Err.isNIE]
    · simp_all

theorem write_no_nie (env : Env) (p : Option Payload) (s : DBState) (e : Err) (s' : DBState)
    (h : write_last_payload_to_db env p s = (.error e, s')) : e.isNIE = false := by
  unfold write_last_payload_to_db at h
  split at h
  · rename_i e1 s1 heq
    exact errPair_inj h ▸ cdt_no_nie env s e1 s1 heq
  · split at h
    · rename_i e1 s2 heq
      exact errPair_inj h ▸ gdc_no_nie env _ e1 s2 heq
    · simp_all

theorem insert_no_nie (env : Env) (p : Payload) (s : DBState) (e : Err) (s' : DBState)
    (h : insert_data_into_db env p s = (.error e, s')) : e.isNIE = false := by
  unfold insert_data_into_db at h
  split at h
  · rename_i e1 s1 heq
    exact errPair_inj h ▸ cdt_no_nie env s e1 s1 heq
  · split at h
    · rw [← errPair_inj h]
      simp [Err.isNIE]
    · split at h
      · rename_i e1 s2 heq
        exact errPair_inj h ▸ gdc_no_nie env _ e1 s2 heq
      · split at h
        · split at h
          · simp_all
          · rw [← errPair_inj h]
            simp [Err.isNIE]
        · rw [← errPair_inj h]
          simp [Err.isNIE]

/-- `insert_data_into_db` raises `ValueError` when title or date is falsy. -/
theorem insert_invalid {env : Env} (henv : missingVars env = []) (p : Payload) (s : DBState)
    (hbad : truthyOpt (pget p "title") = false ∨ truthyOpt (pget p "date") = false) :
    insert_data_into_db env p s =
      (.error (.valueError "Missing required fields: title, date"),
       closeConn { openConn (openConn s) with eventsExists := true }) := by
  simp only [insert_data_into_db, cdt_complete henv]
  rcases hbad with h | h <;> simp [h]

/-- The route's 400 test is the negation of `keysPresent`. -/
theorem cond_eq_not_keysPresent (p : Payload) :
    (p.isEmpty || !hasKey p "title" || !hasKey p "date") = !keysPresent (some p) := by
  simp only [keysPresent]
  cases p.isEmpty <;> cases hasKey p "title" <;> cases hasKey p "date" <;> rfl

theorem fetch_no_nie (env : Env) (s : DBState) (e : Err) (s' : DBState)
    (h : fetch_data_from_db env s = (.error e, s')) : e.isNIE = false := by
  unfold fetch_data_from_db at h
  split at h
  · rename_i e1 s1 heq
    exact errPair_inj h ▸ cdt_no_nie env s e1 s1 heq
  · split at h
    · rename_i e1 s2 heq
      exact errPair_inj h ▸ gdc_no_nie env _ e1 s2 heq
    · simp_all


/-! Claim theorems. -/

/-- C1 counterexample: the payload carrying both required keys with an EMPTY title
value is answered 500 (the `ValueError` of `insert_data_into_db` is caught by the
generic handler), not 400 as the claim states. -/
theorem c1_cex_empty_value_gives_500 :
    (create_event env₀
      (some [("title", JVal.jstr ""), ("date", JVal.jstr "2024-01-01")]) st₀).1.1 = 500 ∧
    ¬ ((create_event env₀
      (some [("title", JVal.jstr ""), ("date", JVal.jstr "2024-01-01")]) st₀).1.1 = 400) := by
  decide

/-- C1 (amended): a POST `/events` whose payload lacks `title` or `date` (or has a
null/empty body) is answered 400; a payload carrying both keys where either value
is empty/falsy is answered 500; in both cases no row is added to the events
table. -/
theorem c1_invalid_required_fields (env : Env) (payload : Option Payload)
    (st : ServerState) (henv : missingVars env = [])
    (hbad : truthyOpt (pgetOpt payload "title") = false ∨
            truthyOpt (pgetOpt payload "date") = false) :
    (create_event env payload st).2.db.events = st.db.events ∧
    (create_event env payload st).1.1 = (if keysPresent payload then 500 else 400) := by
  unfold create_event
  rw [write_complete henv]
  cases payload with
  | none => simp [keysPresent, openConn, closeConn]
  | some p =>
    simp only []
    rw [cond_eq_not_keysPresent]
    cases hkp : keysPresent (some p) with
    | false => simp [keysPresent] at hkp ⊢; simp [hkp, openConn, closeConn]
    | true =>
      simp only [hkp, Bool.not_true]
      rw [if_neg (by simp)]
      rw [insert_invalid henv p _ hbad]
      simp [routeErr, openConn, closeConn, keysPresent, hkp]

/-- C1 witness: a payload with `title` only (no `date` key) on a complete
environment, instantiating `c1_invalid_required_fields`. -/
theorem c1_witness :
    missingVars env₀ = [] ∧
    ((create_event env₀ (some [("title", JVal.jstr "T")]) st₀).2.db.events =
        st₀.db.events ∧
     (create_event env₀ (some [("title", JVal.jstr "T")]) st₀).1.1 =
        (if keysPresent (some [("title", JVal.jstr "T")]) then 500 else 400)) :=
  ⟨by decide,
   c1_invalid_required_fields env₀ (some [("title", JVal.jstr "T")]) st₀ (by decide)
     (Or.inr (by decide))⟩

/-- C2 counterexample: the payload `["title" = "T", "date" = ""]` contains both
keys, yet the response is 500 (ValueError on the empty date), not 201. -/
theorem c2_cex_empty_date_not_201 :
    (create_event env₀
      (some [("title", JVal.jstr "T"), ("date", JVal.jstr "")]) st₀).1.1 = 500 ∧
    ¬ ((create_event env₀
      (some [("title", JVal.jstr "T"), ("date", JVal.jstr "")]) st₀).1.1 = 201) := by
  decide

/-- C2 (amended): a POST `/events` whose payload carries a truthy (non-empty)
`title` and a `date` string accepted by MySQL as a date is answered 201 and
appends exactly one row with the submitted title, description, image_url, date
and location, each absent optional field stored as null (`none`). -/
theorem c2_valid_payload_creates_row (env : Env) (p : Payload) (st : ServerState)
    (tv : JVal) (ds : String) (d : Date)
    (henv : missingVars env = [])
    (ht : pget p "title" = some tv) (htv : tv.falsy = false)
    (hd : pget p "date" = some (JVal.jstr ds)) (hds : parseDate ds = some d) :
    (create_event env (some p) st).1 = (201, .jmsg "Event created successfully") ∧
    (create_event env (some p) st).2.db.events = st.db.events ++
      [⟨tv, pget p "description", pget p "image_url", d, pget p "location"⟩] := by
  unfold create_event
  rw [write_complete henv]
  simp only []
  have hkt := hasKey_of_pget ht
  have hkd := hasKey_of_pget hd
  have hne := not_isEmpty_of_hasKey hkt
  rw [if_neg (by simp [hkt, hkd, hne])]
  rw [insert_valid henv p tv ds d _ ht htv hd hds]
  simp [openConn, closeConn]

/-- C2 witness: a minimal valid payload (title and date only) on the fresh state,
instantiating `c2_valid_payload_creates_row`; the optional fields of the stored
row are null. -/
theorem c2_witness :
    missingVars env₀ = [] ∧
    ((create_event env₀
        (some [("title", JVal.jstr "T"), ("date", JVal.jstr "2024-01-05")]) st₀).1 =
      (201, .jmsg "Event created successfully") ∧
     (create_event env₀
        (some [("title", JVal.jstr "T"), ("date", JVal.jstr "2024-01-05")]) st₀).2.db.events =
      st₀.db.events ++
        [⟨JVal.jstr "T", pget [("title", JVal.jstr "T"), ("date", JVal.jstr "2024-01-05")] "description",
          pget [("title", JVal.jstr "T"), ("date", JVal.jstr "2024-01-05")] "image_url",
          ⟨2024, 1, 5⟩,
          pget [("title", JVal.jstr "T"), ("date", JVal.jstr "2024-01-05")] "location"⟩]) :=
  ⟨by decide,
   c2_valid_payload_creates_row env₀
     [("title", JVal.jstr "T"), ("date", JVal.jstr "2024-01-05")] st₀
     (JVal.jstr "T") "2024-01-05" ⟨2024, 1, 5⟩
     (by decide) (by decide) (by decide) (by decide) (by decide)⟩

/-- C3: GET `/data` on a complete environment returns 200 with the full contents
of the events table (each row as title, date formatted YYYY-MM-DD, image_url,
description, location), in ascending date order; an empty table yields
`(200, data [])`, not an error. -/
theorem c3_get_data_ordered (env : Env) (st : ServerState)
    (henv : missingVars env = []) :
    (get_data env st).1.1 = 200 ∧
    (∃ sortedEvents : List EventRow,
      List.Perm sortedEvents st.db.events ∧
      List.Pairwise (fun a b => Date.le a.date b.date = true) sortedEvents ∧
      (get_data env st).1.2 = .jdata (sortedEvents.map EventRow.toDataRow)) ∧
    (st.db.events = [] → (get_data env st).1 = (200, .jdata [])) := by
  unfold get_data
  rw [fetch_complete henv]
  simp only []
  refine ⟨by trivial,
    ⟨st.db.events.mergeSort (fun a b => Date.le a.date b.date), ?_, ?_, by trivial⟩, ?_⟩
  · exact List.mergeSort_perm st.db.events _
  · exact List.sorted_mergeSort
      (fun a b c hab hbc => Date.le_trans a.date b.date c.date hab hbc)
      (fun a b => Date.le_total a.date b.date) st.db.events
  · intro h
    rw [h]
    simp

/-- C3 witness: a state holding three rows with out-of-order dates,
instantiating `c3_get_data_ordered`. -/
theorem c3_witness :
    missingVars env₀ = [] ∧
    ((get_data env₀ stC3).1.1 = 200 ∧
     (∃ sortedEvents : List EventRow,
       List.Perm sortedEvents stC3.db.events ∧
       List.Pairwise (fun a b => Date.le a.date b.date = true) sortedEvents ∧
       (get_data env₀ stC3).1.2 = .jdata (sortedEvents.map EventRow.toDataRow)) ∧
     (stC3.db.events = [] → (get_data env₀ stC3).1 = (200, .jdata []))) :=
  ⟨by decide, c3_get_data_ordered env₀ stC3 (by decide)⟩

/-- C4: on a complete environment, every POST `/events` serializes the raw
payload (`null` for an absent/malformed body) and upserts it as the
`debug_last_payload` row with id 1 before validation, so the persisted mirror is
updated even for requests rejected with 400. -/
theorem c4_mirror_always_updated (env : Env) (payload : Option Payload)
    (st : ServerState) (henv : missingVars env = []) :
    findDebug (create_event env payload st).2.db = some (dumps payload) ∧
    (keysPresent payload = false → (create_event env payload st).1.1 = 400) := by
  unfold create_event
  rw [write_complete henv]
  cases payload with
  | none => simp [findDebug, keysPresent, openConn, closeConn, List.find?]
  | some p =>
    simp only []
    rw [cond_eq_not_keysPresent]
    cases hkp : keysPresent (some p) with
    | false => simp [hkp, findDebug, openConn, closeConn, List.find?]
    | true =>
      simp only [hkp, Bool.not_true]
      rw [if_neg (by simp)]
      rcases hres : insert_data_into_db env p _ with ⟨r, db2⟩
      have hdr := congrArg (fun x => x.2.debugRows) hres
      simp only [] at hdr
      rw [insert_debugRows henv p] at hdr
      cases r <;>
        simp [← hdr, findDebug, routeErr, openConn, closeConn, List.find?, hkp]

/-- C4 witness: an invalid payload (missing `date`) on the fresh state,
instantiating `c4_mirror_always_updated`: the request is answered 400, yet the
mirror row now holds the serialized payload. -/
theorem c4_witness :
    missingVars env₀ = [] ∧
    (findDebug (create_event env₀ (some [("title", JVal.jstr "X")]) st₀).2.db =
       some (dumps (some [("title", JVal.jstr "X")])) ∧
     (keysPresent (some [("title", JVal.jstr "X")]) = false →
       (create_event env₀ (some [("title", JVal.jstr "X")]) st₀).1.1 = 400)) :=
  ⟨by decide, c4_mirror_always_updated env₀ (some [("title", JVal.jstr "X")]) st₀ (by decide)⟩

/-- C5 counterexample: with `DB_HOST` unset, GET `/debug_last_event` does return
status 500, but its body is the framework's generic error page, which does not
name the missing variable — refuting the claim for this database-touching
route. -/
theorem c5_cex_debug_route_anonymous_500 :
    missingVars env₁ = ["DB_HOST"] ∧
    (debug_last_event env₁ st₀).1.1 = 500 ∧
    (debug_last_event env₁ st₀).1.2 = .frameworkError "Internal Server Error" ∧
    RespBody.mentions (debug_last_event env₁ st₀).1.2 "DB_HOST" = false := by
  decide

/-- C5 (amended): when any required environment variable is missing, POST
`/events` and GET `/data` answer 500 with a detail text naming exactly the
missing variables (`envErrMsg`), while GET `/debug_last_event` answers 500 with
the framework's generic error page that names none of them. -/
theorem c5_missing_env_500 (env : Env) (payload : Option Payload) (st : ServerState)
    (henv : missingVars env ≠ []) :
    (create_event env payload st).1 =
      (500, .jerrorDetail "During event creation" (envErrMsg env)) ∧
    (get_data env st).1 =
      (500, .jerrorDetail "During data retrieval" (envErrMsg env)) ∧
    (debug_last_event env st).1 = (500, .frameworkError "Internal Server Error") := by
  refine ⟨?_, ?_, ?_⟩
  · unfold create_event
    rw [write_missing henv]
    simp [routeErr, Err.str]
  · unfold get_data
    rw [fetch_missing henv]
    simp [routeErr, Err.str]
  · unfold debug_last_event
    rw [gdc_missing henv]

/-- C5 witness: the environment lacking `DB_HOST`, instantiating
`c5_missing_env_500`. -/
theorem c5_witness :
    missingVars env₁ ≠ [] ∧
    ((create_event env₁ none st₀).1 =
       (500, .jerrorDetail "During event creation" (envErrMsg env₁)) ∧
     (get_data env₁ st₀).1 =
       (500, .jerrorDetail "During data retrieval" (envErrMsg env₁)) ∧
     (debug_last_event env₁ st₀).1 = (500, .frameworkError "Internal Server Error")) :=
  ⟨by decide, c5_missing_env_500 env₁ none st₀ (by decide)⟩

/-- C6: `create_db_table` on a complete environment and the fresh state opens
TWO connections (line 115 and the `with` block, the second shadowing the first)
but closes only ONE — the handle from line 115 is never released, so one
connection leaks on every call, contradicting release-exactly-once. -/
theorem c6_create_db_table_leaks_connection :
    (create_db_table env₀ st₀.db).2.opened = 2 ∧
    (create_db_table env₀ st₀.db).2.closed = 1 := by
  decide

/-- C7 counterexample: on the fresh state with a complete environment, GET
`/data` does not create the `debug_last_payload` table, and GET
`/debug_last_event` creates neither table — refuting `both tables on every
write/read path`. -/
theorem c7_cex_read_paths_skip_tables :
    (get_data env₀ st₀).2.db.debugExists = false ∧
    (debug_last_event env₀ st₀).2.db.eventsExists = false ∧
    (debug_last_event env₀ st₀).2.db.debugExists = false := by
  decide

/-- C7 (amended): on a complete environment, POST `/events` idempotently ensures
BOTH tables; GET `/data` ensures only the `events` table (the debug table flag
is untouched); GET `/debug_last_event` ensures neither table. -/
theorem c7_schema_ensured_per_route (env : Env) (payload : Option Payload)
    (st : ServerState) (henv : missingVars env = []) :
    ((create_event env payload st).2.db.eventsExists = true ∧
     (create_event env payload st).2.db.debugExists = true) ∧
    ((get_data env st).2.db.eventsExists = true ∧
     (get_data env st).2.db.debugExists = st.db.debugExists) ∧
    ((debug_last_event env st).2.db.eventsExists = st.db.eventsExists ∧
     (debug_last_event env st).2.db.debugExists = st.db.debugExists) := by
  refine ⟨?_, ?_, ?_⟩
  · unfold create_event
    rw [write_complete henv]
    cases payload with
    | none => simp [openConn, closeConn]
    | some p =>
      simp only []
      split
      · simp [openConn, closeConn]
      · rcases hres : insert_data_into_db env p _ with ⟨r, db2⟩
        have he := congrArg (fun x => x.2.eventsExists) hres
        have hd := congrArg (fun x => x.2.debugExists) hres
        simp only [] at he hd
        rw [insert_eventsExists henv p] at he
        rw [insert_debugExists henv p] at hd
        cases r <;> simp [← he, ← hd, openConn, closeConn]
  · unfold get_data
    rw [fetch_complete henv]
    simp [openConn, closeConn]
  · unfold debug_last_event
    rw [gdc_complete henv]
    simp only []
    split <;> (try split) <;> simp [openConn, closeConn]

/-- C7 witness: the fresh state and a null payload, instantiating
`c7_schema_ensured_per_route`. -/
theorem c7_witness :
    missingVars env₀ = [] ∧
    (((create_event env₀ none st₀).2.db.eventsExists = true ∧
      (create_event env₀ none st₀).2.db.debugExists = true) ∧
     ((get_data env₀ st₀).2.db.eventsExists = true ∧
      (get_data env₀ st₀).2.db.debugExists = st₀.db.debugExists) ∧
     ((debug_last_event env₀ st₀).2.db.eventsExists = st₀.db.eventsExists ∧
      (debug_last_event env₀ st₀).2.db.debugExists = st₀.db.debugExists)) :=
  ⟨by decide, c7_schema_ensured_per_route env₀ none st₀ (by decide)⟩

/-- The C8 invariant: the `debug_last_payload` table holds at most one row and
any row it holds has the fixed key 1. -/
def debugInv (s : DBState) : Prop :=
  s.debugRows = [] ∨ ∃ q, s.debugRows = [(1, q)]

/-- C8: the Payload Mirror write unconditionally overwrites the single fixed-key
row (REPLACE INTO with id 1), and the at-most-one-row invariant is preserved by
every route, including requests whose payload later fails validation. -/
theorem c8_single_debug_row (env : Env) (payload : Option Payload)
    (st : ServerState) (henv : missingVars env = []) (hinv : debugInv st.db) :
    (write_last_payload_to_db env payload st.db).2.debugRows = [(1, dumps payload)] ∧
    debugInv (create_event env payload st).2.db ∧
    debugInv (get_data env st).2.db ∧
    debugInv (debug_last_event env st).2.db := by
  have hfilter : st.db.debugRows.filter (fun r => r.1 ≠ 1) = [] := by
    rcases hinv with h | ⟨q, h⟩ <;> simp [h]
  have hrows : (1, dumps payload) :: st.db.debugRows.filter (fun r => r.1 ≠ 1) =
      [(1, dumps payload)] := by rw [hfilter]
  refine ⟨?_, ?_, ?_, ?_⟩
  · rw [write_complete henv]
    exact hrows
  · unfold create_event
    rw [write_complete henv]
    cases payload with
    | none => exact Or.inr ⟨dumps none, hrows⟩
    | some p =>
      simp only []
      split
      · exact Or.inr ⟨dumps (some p), hrows⟩
      · rcases hres : insert_data_into_db env p _ with ⟨r, db2⟩
        have hdr := congrArg (fun x => x.2.debugRows) hres
        simp only [] at hdr
        rw [insert_debugRows henv p] at hdr
        cases r <;>
          exact Or.inr ⟨dumps (some p), by rw [← hdr]; exact hrows⟩
  · unfold get_data
    rw [fetch_complete henv]
    rcases hinv with h | ⟨q, h⟩
    · exact Or.inl (by simp [openConn, closeConn, h])
    · exact Or.inr ⟨q, by simp [openConn, closeConn, h]⟩
  · unfold debug_last_event
    rw [gdc_complete henv]
    simp only []
    rcases hinv with h | ⟨q, h⟩
    · split <;> (try split) <;> exact Or.inl (by simp [openConn, closeConn, h])
    · split <;> (try split) <;> exact Or.inr ⟨q, by simp [openConn, closeConn, h]⟩

/-- C8 witness: overwriting an existing debug row with a new payload,
instantiating `c8_single_debug_row`. -/
theorem c8_witness :
    missingVars env₀ = [] ∧ debugInv stC8.db ∧
    ((write_last_payload_to_db env₀ (some [("k", JVal.jnum 2)]) stC8.db).2.debugRows =
       [(1, dumps (some [("k", JVal.jnum 2)]))] ∧
     debugInv (create_event env₀ (some [("k", JVal.jnum 2)]) stC8).2.db ∧
     debugInv (get_data env₀ stC8).2.db ∧
     debugInv (debug_last_event env₀ stC8).2.db) :=
  ⟨by decide, Or.inr ⟨"old", rfl⟩,
   c8_single_debug_row env₀ (some [("k", JVal.jnum 2)]) stC8 (by decide)
     (Or.inr ⟨"old", rfl⟩)⟩

/-- C9 counterexample: two states sharing the same database but with different
in-memory `LAST_EVENT_PAYLOAD` slots get identical responses from GET
`/debug_last_event`, and the response shows the PERSISTED row, not the slot —
the debug-read endpoint never reads the in-memory slot. -/
theorem c9_cex_debug_ignores_slot :
    stA.db = stB.db ∧
    ¬ (stA.lastPayload = stB.lastPayload) ∧
    (debug_last_event env₀ stA).1 = (debug_last_event env₀ stB).1 ∧
    (debug_last_event env₀ stA).1.2 = .jdebugRow "\"B\"" ∧
    ¬ (.jdebugRow "\"B\"" = RespBody.jdebugRow (dumps stA.lastPayload)) := by
  decide

/-- C9 (amended): POST `/events` does update the in-memory `LAST_EVENT_PAYLOAD`
slot (once the mirror write succeeded), but GET `/debug_last_event` reads only
the persisted `debug_last_payload` row: its response is a function of the
database state alone, independent of the slot. -/
theorem c9_slot_written_never_read (env : Env) (payload : Option Payload)
    (st st' : ServerState) (henv : missingVars env = []) (hdb : st.db = st'.db) :
    (create_event env payload st).2.lastPayload = payload ∧
    (debug_last_event env st).1 = (debug_last_event env st').1 := by
  constructor
  · unfold create_event
    rw [write_complete henv]
    cases payload with
    | none => rfl
    | some p =>
      simp only []
      split
      · rfl
      · rcases hres : insert_data_into_db env p _ with ⟨r, db2⟩
        cases r <;> rfl
  · unfold debug_last_event
    rw [hdb]
    rcases hg : get_db_connection env st'.db with ⟨r, db1⟩
    cases r with
    | error e => rfl
    | ok u =>
      simp only []
      split
      · split <;> rfl
      · rfl

/-- C9 witness: the fresh state twice (equal databases), with a concrete
payload, instantiating `c9_slot_written_never_read`. -/
theorem c9_witness :
    missingVars env₀ = [] ∧ stA.db = stB.db ∧
    ((create_event env₀ (some [("title", JVal.jstr "A")]) stA).2.lastPayload =
       some [("title", JVal.jstr "A")] ∧
     (debug_last_event env₀ stA).1 = (debug_last_event env₀ stB).1) :=
  ⟨by decide, by decide,
   c9_slot_written_never_read env₀ (some [("title", JVal.jstr "A")]) stA stB
     (by decide) (by decide)⟩

/-- C10: `insert_data_into_db` and `fetch_data_from_db` never raise
`NotImplementedError` (the stubs were filled in), so the 501 branches of POST
`/events` and GET `/data` are unreachable: no request is ever answered 501. -/
theorem c10_no_501_responses (env : Env) (payload : Option Payload)
    (st : ServerState) :
    ¬ ((create_event env payload st).1.1 = 501) ∧
    ¬ ((get_data env st).1.1 = 501) := by
  constructor
  · unfold create_event
    rcases hw : write_last_payload_to_db env payload st.db with ⟨r, db1⟩
    cases r with
    | error e =>
      have hnie := write_no_nie env payload st.db e db1 hw
      cases e <;> simp_all [routeErr, Err.isNIE]
    | ok u =>
      simp only []
      cases payload with
      | none => simp
      | some p =>
        simp only []
        split
        · simp
        · rcases hres : insert_data_into_db env p db1 with ⟨ri, db2⟩
          cases ri with
          | ok u2 => simp
          | error e =>
            have hnie := insert_no_nie env p db1 e db2 hres
            cases e <;> simp_all [routeErr, Err.isNIE]
  · unfold get_data
    rcases hf : fetch_data_from_db env st.db with ⟨r, db1⟩
    cases r with
    | ok rows => simp
    | error e =>
      have hnie := fetch_no_nie env st.db e db1 hf
      cases e <;> simp_all [routeErr, Err.isNIE]

end App
